import Mathlib

/-!
Verification of the bridge-transaction lifecycle orchestrator of
`agglayer-bridge-test.js` (the Agglayer SDK bridge test harness).

The JavaScript is shallowly embedded: every external SDK / RPC interaction
(route query, allowance query, transaction submission, confirmation wait, ...)
is answered by an explicit environment `Env`, and each computation returns an
`Except String` result paired with the trace of external calls it made, so
that "no transaction was submitted" or "the fallback was attempted" are
statements about the trace.  Machine integers (wei amounts, gas) are `Nat`;
the float configuration values (gas multiplier, slippage) are `ℚ`.
-/

namespace AggBridge

/-- The four configured chains (keys of the `CHAINS` object). -/
inductive ChainName where
  | ethereum
  | base
  | katana
  | okx
deriving DecidableEq, Repr

/-- The four configured logical tokens (keys of the `TOKENS` object). -/
inductive TokenSym where
  | ETH
  | WBTC
  | OKB
  | CUSTOM_ERC20
deriving DecidableEq, Repr

/-- The string key of a chain, as used in log and result messages. -/
def chainKey : ChainName → String
  | .ethereum => "ethereum"
  | .base => "base"
  | .katana => "katana"
  | .okx => "okx"

/-- The string key of a token symbol, as interpolated into messages. -/
def symName : TokenSym → String
  | .ETH => "ETH"
  | .WBTC => "WBTC"
  | .OKB => "OKB"
  | .CUSTOM_ERC20 => "CUSTOM_ERC20"

/-- `ethers.constants.AddressZero`. -/
def zeroAddress : String := "0x0000000000000000000000000000000000000000"

/-- One entry of the `CHAINS` table. -/
structure ChainConfig where
  chainId : Nat
  networkId : Nat
  name : String
  bridgeAddress : Option String
deriving DecidableEq, Repr

/-- One per-chain token descriptor of the `TOKENS` table.
`address = none` models the JS `null` ("not yet resolved"). -/
structure TokenInfo where
  address : Option String
  symbol : String
  decimals : Nat
  isNative : Bool
deriving DecidableEq, Repr

/-- `TEST_CONFIG` together with the environment variables that feed the
`CHAINS`/`TOKENS` tables (bridge-address overrides, `CUSTOM_TOKEN_KATANA`)
and the test wallet address. -/
structure Config where
  dryRun : Bool
  skipBalanceCheck : Bool
  gasMultiplier : ℚ
  slippage : ℚ
  amountETH : Nat
  amountWBTC : Nat
  amountOKB : Nat
  amountCUSTOM : Nat
  customTokenKatana : Option String
  ethereumBridgeOverride : Option String
  katanaBridgeOverride : Option String
  okxBridgeOverride : Option String
  walletAddress : String
deriving DecidableEq, Repr

/-- `TEST_CONFIG.testAmounts[tokenSymbol]`. -/
def testAmounts (cfg : Config) : TokenSym → Nat
  | .ETH => cfg.amountETH
  | .WBTC => cfg.amountWBTC
  | .OKB => cfg.amountOKB
  | .CUSTOM_ERC20 => cfg.amountCUSTOM

/-- The `CHAINS` table.  Base has no bridge address (`null` in the source);
the other three default to the fixed bridge contract unless overridden by
environment variables. -/
def CHAINS (cfg : Config) : ChainName → ChainConfig
  | .ethereum =>
      ⟨1, 0, "Ethereum",
        some (cfg.ethereumBridgeOverride.getD "0x2a3DD3EB832aF982ec71669E178424b10Dca2EDe")⟩
  | .base => ⟨8453, 10, "Base", none⟩
  | .katana =>
      ⟨747474, 20, "Katana",
        some (cfg.katanaBridgeOverride.getD "0x2a3DD3EB832aF982ec71669E178424b10Dca2EDe")⟩
  | .okx =>
      ⟨196, 2, "OKX X Layer",
        some (cfg.okxBridgeOverride.getD "0x2a3DD3EB832aF982ec71669E178424b10Dca2EDe")⟩

/-- The `TOKENS` table: `TOKENS sym chain = none` models an absent key
(e.g. OKB has no Base entry). -/
def TOKENS (cfg : Config) : TokenSym → ChainName → Option TokenInfo
  | .ETH, .ethereum => some ⟨some zeroAddress, "ETH", 18, true⟩
  | .ETH, .base => some ⟨some zeroAddress, "ETH", 18, true⟩
  | .ETH, .katana => some ⟨some zeroAddress, "ETH", 18, true⟩
  | .ETH, .okx => some ⟨some "0x5a77f1443d16ee5761d310e38b62f77f726bc71c", "WETH", 18, false⟩
  | .WBTC, .ethereum => some ⟨some "0x2260FAC5E5542a773Aa44fBCfeDf7C193bc2C599", "WBTC", 8, false⟩
  | .WBTC, .base => some ⟨some "0x0555E30da8f98308EdB960aa94C0Db47230d2B9c", "WBTC", 8, false⟩
  | .WBTC, .katana => some ⟨none, "WBTC", 8, false⟩
  | .WBTC, .okx => some ⟨some "0xea034fb02eb1808c2cc3adbc15f447b93cbe08e1", "WBTC", 8, false⟩
  | .OKB, .ethereum => some ⟨some "0x75231F58b43240C9718Dd58B4967c5114342a86c", "OKB", 18, false⟩
  | .OKB, .okx => some ⟨some zeroAddress, "OKB", 18, true⟩
  | .OKB, .katana => some ⟨none, "OKB", 18, false⟩
  | .OKB, .base => none
  | .CUSTOM_ERC20, .katana => some ⟨cfg.customTokenKatana, "ASTEST", 18, false⟩
  | .CUSTOM_ERC20, .base => some ⟨none, "ASTEST", 18, false⟩
  | .CUSTOM_ERC20, .ethereum => some ⟨none, "ASTEST", 18, false⟩
  | .CUSTOM_ERC20, .okx => none

/-- An unsigned transaction object as returned by a backend.  Optional
fields model JS fields that may be absent; `gasLimit` is `none` for the
JS-falsy cases (absent, `0`, empty string).  `toAddr`/`fromAddr` stand for
the JS `to`/`from` fields (Lean keywords). -/
structure UnsignedTx where
  toAddr : String
  data : String
  value : Option String
  gasLimit : Option Nat
  nonce : Option String
  gasPrice : Option String
  fromAddr : Option String
  txChainId : Option Nat
deriving DecidableEq, Repr

/-- The argument object of `core.getRoutes`. -/
structure RouteQuery where
  fromChainId : Nat
  toChainId : Nat
  fromTokenAddress : String
  toTokenAddress : String
  amount : Nat
  fromAddress : String
  slippage : ℚ
deriving DecidableEq, Repr

/-- A route returned by the Core API; only its identity and `protocol` tag
matter to the orchestrator. -/
structure Route where
  protocol : Option String
  payload : Nat
deriving DecidableEq, Repr

/-- The argument object of `bridge.buildBridgeAsset`. -/
structure BridgeAssetArgs where
  destinationNetwork : Nat
  destinationAddress : String
  amount : Nat
  token : String
  forceUpdateGlobalExitRoot : Bool
deriving DecidableEq, Repr

/-- The response handle of `sendTransaction`. -/
structure TxResponse where
  hash : String
deriving DecidableEq, Repr

/-- A confirmation receipt (`txResponse.wait()`). -/
structure Receipt where
  blockNumber : Nat
  gasUsed : Nat
deriving DecidableEq, Repr

/-- One record of `this.testResults` (optional fields are present only on
the record shapes that carry them in the source). -/
structure TestResult where
  test : String
  status : String
  method : Option String
  txHash : Option String
  blockNumber : Option Nat
  gasUsed : Option Nat
  error : Option String
  reason : Option String
  fromChain : ChainName
  toChain : ChainName
  token : TokenSym
  amount : Option Nat
deriving DecidableEq, Repr

/-- One external interaction of the orchestrator; the trace of these is the
observable behaviour a claim about side effects quantifies over. -/
inductive Event where
  | getNativeBalance (wallet : String) (chainId : Nat)
  | getErc20Balance (token : Option String) (chainId : Nat) (owner : String)
  | getRoutes (q : RouteQuery)
  | getUnsignedTransaction (r : Route)
  | getAllowance (token : String) (chainId : Nat) (owner : String) (spender : Option String)
  | buildApprove (token : String) (chainId : Nat) (spender : Option String)
      (amount : Nat) (owner : String)
  | buildBridgeAsset (bridgeAddress : Option String) (chainId : Nat)
      (args : BridgeAssetArgs) (sender : String)
  | estimateGas (toA : String) (dataA : String) (valueA : String)
  | sendTransaction (chainId : Nat) (tx : UnsignedTx)
  | waitForReceipt (hash : String)
  | sleep (ms : Nat)
  | processClaims (pending : List TestResult)
deriving DecidableEq, Repr

/-- The environment of external collaborators: every SDK / RPC call is
answered deterministically from its arguments, either with a value or with
a thrown error message.  `mockHash` stands for the synthetic random hash
generated in dry-run mode (randomness is modelled as an environment-supplied
value). -/
structure Env where
  nativeBalance : String → Nat → Except String Nat
  erc20Balance : Option String → Nat → String → Except String Nat
  routes : RouteQuery → Except String (Option (List Route))
  unsignedTxOfRoute : Route → Except String UnsignedTx
  allowance : String → Nat → String → Option String → Except String Nat
  approveTxOf : String → Nat → Option String → Nat → String → Except String UnsignedTx
  bridgeAssetTx : Option String → Nat → BridgeAssetArgs → String → Except String UnsignedTx
  estGas : String → String → String → Except String Nat
  sendTx : Nat → UnsignedTx → Except String TxResponse
  waitTx : String → Except String Receipt
  mockHash : String

/-- A computation of the harness: its result (or thrown error) together
with the trace of external calls it performed. -/
def M (α : Type) : Type := Except String α × List Event

/-- Return a value, performing no external call. -/
def M.pure {α : Type} (a : α) : M α := (Except.ok a, [])

/-- Sequencing: on success continue (their traces concatenate); a thrown
error short-circuits but keeps the calls already made. -/
def M.bind {α β : Type} (x : M α) (f : α → M β) : M β :=
  match x with
  | (Except.ok a, tr) => ((f a).1, tr ++ (f a).2)
  | (Except.error e, tr) => (Except.error e, tr)

/-- `throw new Error(e)`. -/
def M.throw {α : Type} (e : String) : M α := (Except.error e, [])

/-- One external call: the request `ev` is recorded whatever the answer. -/
def M.call {α : Type} (ev : Event) (r : Except String α) : M α := (r, [ev])

/-- A JS `try { x } catch (e) { h e }`. -/
def M.tryCatch {α : Type} (x : M α) (h : String → M α) : M α :=
  match x with
  | (Except.ok a, tr) => (Except.ok a, tr)
  | (Except.error e, tr) => ((h e).1, tr ++ (h e).2)

/-- An effect-free event emission (used for waits of the modelled claim
phase and the pacing delay). -/
def M.emit (ev : Event) : M Unit := (Except.ok (), [ev])

/-- `x || '0'` on an optional JS string field (absent or empty is falsy). -/
def jsOrZero : Option String → String
  | none => "0"
  | some s => if s = "" then "0" else s

/-- `Math.floor(TEST_CONFIG.gasMultiplier * 100)`, the integer factor the
resolved gas limit is multiplied by before the `div(100)`. -/
def gasMulFactor (cfg : Config) : Nat := (Rat.floor (cfg.gasMultiplier * 100)).toNat

/-- The result object of `executeTransaction`. -/
structure ExecResult where
  hash : String
  blockNumber : Option Nat
  gasUsed : Option Nat
  mock : Bool
deriving DecidableEq, Repr

/-- `checkBalance(chainName, tokenSymbol, requiredAmount)`: queries the
native or ERC20 balance via the SDK and compares; any thrown error is
caught and reported as `false`. -/
def checkBalance (env : Env) (cfg : Config) (chainName : ChainName) (sym : TokenSym)
    (requiredAmount : Nat) : M Bool :=
  M.tryCatch
    (match TOKENS cfg sym chainName with
     | none => M.throw "TypeError: token is undefined"
     | some token =>
        let chainId := (CHAINS cfg chainName).chainId
        M.bind
          (if token.isNative then
            M.call (Event.getNativeBalance cfg.walletAddress chainId)
              (env.nativeBalance cfg.walletAddress chainId)
          else
            M.call (Event.getErc20Balance token.address chainId cfg.walletAddress)
              (env.erc20Balance token.address chainId cfg.walletAddress))
          (fun bal => M.pure (decide (requiredAmount ≤ bal))))
    (fun _ => M.pure false)

/-- `approveToken(chainName, tokenAddress, spenderAddress, amount)`: query
the current allowance; if it already covers `amount`, return with no
transaction; in dry-run mode, return before building the approval;
otherwise build, submit and await the approval transaction.  The JS
`catch` logs and rethrows. -/
def approveToken (env : Env) (cfg : Config) (chainName : ChainName) (tokenAddress : String)
    (spenderAddress : Option String) (amount : Nat) : M Unit :=
  M.tryCatch
    (let chainId := (CHAINS cfg chainName).chainId
     M.bind
       (M.call (Event.getAllowance tokenAddress chainId cfg.walletAddress spenderAddress)
         (env.allowance tokenAddress chainId cfg.walletAddress spenderAddress))
       (fun allowanceV =>
         if amount ≤ allowanceV then M.pure ()
         else if cfg.dryRun then M.pure ()
         else
           M.bind
             (M.call (Event.buildApprove tokenAddress chainId spenderAddress amount cfg.walletAddress)
               (env.approveTxOf tokenAddress chainId spenderAddress amount cfg.walletAddress))
             (fun approveTx =>
               M.bind (M.call (Event.sendTransaction chainId approveTx) (env.sendTx chainId approveTx))
                 (fun resp =>
                   M.bind (M.call (Event.waitForReceipt resp.hash) (env.waitTx resp.hash))
                     (fun _ => M.pure ())))))
    (fun e => M.throw e)

/-- `executeTransaction(unsignedTx, fromChain)`: in dry-run mode return a
synthetic hash immediately with `mock = true` and no external interaction;
in live mode resolve the gas limit (transaction value, else estimation,
else the fixed `'800000'` on estimation failure), apply the gas
multiplier with `mul(Math.floor(gasMultiplier*100)).div(100)`, submit the
four-field transaction object and await one confirmation. -/
def executeTransaction (env : Env) (cfg : Config) (tx : UnsignedTx) (fromChain : ChainName) :
    M ExecResult :=
  if cfg.dryRun then
    M.pure { hash := env.mockHash, blockNumber := none, gasUsed := none, mock := true }
  else
    let chainId := (CHAINS cfg fromChain).chainId
    M.bind
      (match tx.gasLimit with
       | some g => M.pure g
       | none =>
          M.tryCatch
            (M.call (Event.estimateGas tx.toAddr tx.data (jsOrZero tx.value))
              (env.estGas tx.toAddr tx.data (jsOrZero tx.value)))
            (fun _ => M.pure 800000))
      (fun g0 =>
        let g := g0 * gasMulFactor cfg / 100
        let sent : UnsignedTx :=
          { toAddr := tx.toAddr, data := tx.data, value := some (jsOrZero tx.value),
            gasLimit := some g, nonce := none, gasPrice := none, fromAddr := none,
            txChainId := none }
        M.bind (M.call (Event.sendTransaction chainId sent) (env.sendTx chainId sent))
          (fun resp =>
            M.bind (M.call (Event.waitForReceipt resp.hash) (env.waitTx resp.hash))
              (fun rcpt =>
                M.pure { hash := resp.hash, blockNumber := some rcpt.blockNumber,
                         gasUsed := some rcpt.gasUsed, mock := false })))

/-- Step 3 of `testBridgeScenario` (both branches): approve the source
token against the chain's bridge address unless it is native or the zero
address. -/
def maybeApprove (env : Env) (cfg : Config) (fromChain : ChainName) (fromTok : TokenInfo)
    (fromTokenAddress : String) (amount : Nat) : M Unit :=
  if fromTok.isNative = false ∧ fromTokenAddress ≠ zeroAddress then
    approveToken env cfg fromChain fromTokenAddress (CHAINS cfg fromChain).bridgeAddress amount
  else M.pure ()

/-- The `try` branch of step 2-4: `core.getRoutes` (throwing on a null or
empty route list), approval, then `core.getUnsignedTransaction` on the
first route. -/
def primaryRoute (env : Env) (cfg : Config) (fromChain toChain : ChainName)
    (fromTok : TokenInfo) (fromTokenAddress toTokenAddress : String) (amount : Nat) :
    M UnsignedTx :=
  let q : RouteQuery :=
    { fromChainId := (CHAINS cfg fromChain).chainId,
      toChainId := (CHAINS cfg toChain).chainId,
      fromTokenAddress := fromTokenAddress,
      toTokenAddress := toTokenAddress,
      amount := amount,
      fromAddress := cfg.walletAddress,
      slippage := cfg.slippage }
  M.bind (M.call (Event.getRoutes q) (env.routes q))
    (fun routesOpt =>
      match routesOpt with
      | none => M.throw "No routes available from Core API"
      | some [] => M.throw "No routes available from Core API"
      | some (bestRoute :: _) =>
          M.bind (maybeApprove env cfg fromChain fromTok fromTokenAddress amount)
            (fun _ =>
              M.call (Event.getUnsignedTransaction bestRoute)
                (env.unsignedTxOfRoute bestRoute)))

/-- The `catch` branch of step 2-4: approval, then
`bridge(bridgeAddress, chainId).buildBridgeAsset({destinationNetwork,
destinationAddress, amount, token, forceUpdateGlobalExitRoot: true},
wallet)`. -/
def fallbackRoute (env : Env) (cfg : Config) (fromChain toChain : ChainName)
    (fromTok : TokenInfo) (fromTokenAddress : String) (amount : Nat) : M UnsignedTx :=
  M.bind (maybeApprove env cfg fromChain fromTok fromTokenAddress amount)
    (fun _ =>
      let args : BridgeAssetArgs :=
        { destinationNetwork := (CHAINS cfg toChain).networkId,
          destinationAddress := cfg.walletAddress,
          amount := amount,
          token := fromTokenAddress,
          forceUpdateGlobalExitRoot := true }
      M.call
        (Event.buildBridgeAsset (CHAINS cfg fromChain).bridgeAddress
          (CHAINS cfg fromChain).chainId args cfg.walletAddress)
        (env.bridgeAssetTx (CHAINS cfg fromChain).bridgeAddress
          (CHAINS cfg fromChain).chainId args cfg.walletAddress))

/-- Steps 2-4 of `testBridgeScenario`: try the Core API, and on any thrown
error fall back to the Native Bridge module; the second component is the
`bridgeMethod` string as finally recorded. -/
def resolveRoute (env : Env) (cfg : Config) (fromChain toChain : ChainName)
    (fromTok : TokenInfo) (fromTokenAddress toTokenAddress : String) (amount : Nat) :
    M (UnsignedTx × String) :=
  M.tryCatch
    (M.bind (primaryRoute env cfg fromChain toChain fromTok fromTokenAddress toTokenAddress amount)
      (fun tx => M.pure (tx, "Core API")))
    (fun _ =>
      M.bind (fallbackRoute env cfg fromChain toChain fromTok fromTokenAddress amount)
        (fun tx => M.pure (tx, "Native Bridge")))

/-- The scenario's display name, e.g. `"WBTC: katana → base"`. -/
def testName (fromChain toChain : ChainName) (sym : TokenSym) : String :=
  symName sym ++ ": " ++ chainKey fromChain ++ " → " ++ chainKey toChain

/-- The thrown message of the source-token pre-check. -/
def msgNotResolved (sym : TokenSym) (c : ChainName) : String :=
  "Token " ++ symName sym ++ " address not resolved on " ++ chainKey c

/-- The thrown message of the token-configuration check. -/
def msgNotConfigured (sym : TokenSym) (a b : ChainName) : String :=
  "Token " ++ symName sym ++ " not configured for " ++ chainKey a ++ " or " ++ chainKey b

/-- The thrown message of the balance check. -/
def msgInsufficient (sym : TokenSym) (c : ChainName) : String :=
  "Insufficient " ++ symName sym ++ " balance on " ++ chainKey c

/-- The success record pushed at the end of `testBridgeScenario`. -/
def successResult (fromChain toChain : ChainName) (sym : TokenSym) (amount : Nat)
    (method : String) (r : ExecResult) : TestResult :=
  { test := testName fromChain toChain sym,
    status := if r.mock then "SUCCESS (DRY RUN)" else "SUCCESS",
    method := some method, txHash := some r.hash, blockNumber := r.blockNumber,
    gasUsed := r.gasUsed, error := none, reason := none,
    fromChain := fromChain, toChain := toChain, token := sym, amount := some amount }

/-- The failure record pushed by the scenario-level `catch`. -/
def failedResult (fromChain toChain : ChainName) (sym : TokenSym) (e : String) : TestResult :=
  { test := testName fromChain toChain sym,
    status := "FAILED", method := none, txHash := none, blockNumber := none,
    gasUsed := none, error := some e, reason := none,
    fromChain := fromChain, toChain := toChain, token := sym, amount := none }

/-- Step 1 of `testBridgeScenario`: unless balance checks are disabled,
check the source balance and throw when it is insufficient. -/
def balanceGate (env : Env) (cfg : Config) (fromChain : ChainName) (sym : TokenSym)
    (amount : Nat) : M Unit :=
  if cfg.skipBalanceCheck = false then
    M.bind (checkBalance env cfg fromChain sym amount)
      (fun hasBalance =>
        if hasBalance = false then M.throw (msgInsufficient sym fromChain) else M.pure ())
  else M.pure ()

/-- The body of `testBridgeScenario`'s outer `try`: token-configuration
validation, the source-token pre-check, balance gate, route resolution,
execution, and the success record. -/
def scenarioBody (env : Env) (cfg : Config) (fromChain toChain : ChainName) (sym : TokenSym) :
    M TestResult :=
  match TOKENS cfg sym fromChain, TOKENS cfg sym toChain with
  | some fromTok, some toTok =>
      if fromTok.isNative = false ∧ fromTok.address = none then
        M.throw (msgNotResolved sym fromChain)
      else
        let amount := testAmounts cfg sym
        let fromTokenAddress := fromTok.address.getD zeroAddress
        let toTokenAddress := toTok.address.getD zeroAddress
        M.bind (balanceGate env cfg fromChain sym amount)
          (fun _ =>
            M.bind (resolveRoute env cfg fromChain toChain fromTok fromTokenAddress
                toTokenAddress amount)
              (fun txm =>
                M.bind (executeTransaction env cfg txm.1 fromChain)
                  (fun r => M.pure (successResult fromChain toChain sym amount txm.2 r))))
  | _, _ => M.throw (msgNotConfigured sym fromChain toChain)

/-- `testBridgeScenario(fromChain, toChain, tokenSymbol, direction)`: the
body under the outer `catch` that converts any thrown error into a FAILED
record. -/
def testBridgeScenario (env : Env) (cfg : Config) (fromChain toChain : ChainName)
    (sym : TokenSym) : M TestResult :=
  M.tryCatch (scenarioBody env cfg fromChain toChain sym)
    (fun e => M.pure (failedResult fromChain toChain sym e))

/-- One entry of the `testScenarios` list. -/
structure Scenario where
  fromC : ChainName
  toC : ChainName
  token : TokenSym
  direction : String
deriving DecidableEq, Repr

/-- The ordered scenario list of `runAllTests`. -/
def testScenarios : List Scenario :=
  [ ⟨.base, .katana, .ETH, "Base→Katana"⟩,
    ⟨.katana, .base, .ETH, "Katana→Base"⟩,
    ⟨.base, .katana, .WBTC, "Base→Katana"⟩,
    ⟨.katana, .base, .WBTC, "Katana→Base"⟩,
    ⟨.base, .katana, .CUSTOM_ERC20, "Base→Katana"⟩,
    ⟨.katana, .base, .CUSTOM_ERC20, "Katana→Base"⟩,
    ⟨.katana, .okx, .ETH, "Katana→OKX"⟩,
    ⟨.okx, .katana, .ETH, "OKX→Katana"⟩,
    ⟨.katana, .okx, .OKB, "Katana→OKX"⟩,
    ⟨.okx, .katana, .OKB, "OKX→Katana"⟩,
    ⟨.katana, .okx, .WBTC, "Katana→OKX"⟩,
    ⟨.okx, .katana, .WBTC, "OKX→Katana"⟩,
    ⟨.katana, .ethereum, .ETH, "Katana→Ethereum"⟩,
    ⟨.ethereum, .katana, .ETH, "Ethereum→Katana"⟩,
    ⟨.katana, .ethereum, .WBTC, "Katana→Ethereum"⟩,
    ⟨.ethereum, .katana, .WBTC, "Ethereum→Katana"⟩,
    ⟨.katana, .ethereum, .CUSTOM_ERC20, "Katana→Ethereum"⟩,
    ⟨.ethereum, .katana, .CUSTOM_ERC20, "Ethereum→Katana"⟩ ]

/-- The SKIPPED record pushed when the ASTEST token is not deployed. -/
def skippedResult (s : Scenario) : TestResult :=
  { test := "ASTEST: " ++ chainKey s.fromC ++ " → " ++ chainKey s.toC,
    status := "SKIPPED", method := none, txHash := none, blockNumber := none,
    gasUsed := none, error := none, reason := some "Token not deployed",
    fromChain := s.fromC, toChain := s.toC, token := s.token, amount := none }

/-- The scenario loop of `runAllTests`: skip undeployed-ASTEST scenarios
(the `continue` also skips the pacing delay), otherwise run the scenario
and, except after the last entry, pause 3 seconds.  Returns the list of
appended test results in order. -/
def runScenarios (env : Env) (cfg : Config) : List Scenario → M (List TestResult)
  | [] => M.pure []
  | s :: rest =>
      if s.token = TokenSym.CUSTOM_ERC20 ∧ cfg.customTokenKatana = none then
        M.bind (runScenarios env cfg rest) (fun rs => M.pure (skippedResult s :: rs))
      else
        M.bind (testBridgeScenario env cfg s.fromC s.toC s.token)
          (fun r =>
            M.bind (if rest.isEmpty then M.pure () else M.emit (Event.sleep 3000))
              (fun _ =>
                M.bind (runScenarios env cfg rest) (fun rs => M.pure (r :: rs))))

/-- `runAllTests()`: drive every scenario of the fixed list. -/
def runAllTests (env : Env) (cfg : Config) : M (List TestResult) :=
  runScenarios env cfg testScenarios

/-- Modelled from the spec: the settlement delay (in milliseconds) the
orchestrator waits before claim processing — "a fixed settlement delay
(default 180 seconds)".  The claim-processing phase is documented in the
spec (§4.5, §4.6) and the README but its code is not among the source
files. -/
def settlementDelayMs : Nat := 180000

/-- Modelled from the spec: the pending-claim registrations after a run —
the results of "non-simulated transfers", i.e. live (non-dry-run)
successes. -/
def pendingOf (rs : List TestResult) : List TestResult :=
  rs.filter (fun r => r.status = "SUCCESS")

/-- The pending claims of a whole run (empty when the run itself threw). -/
def pendingRun (env : Env) (cfg : Config) : List TestResult :=
  match (runAllTests env cfg).1 with
  | Except.ok rs => pendingOf rs
  | Except.error _ => []

/-- The appended test results of a whole run (empty when the run threw). -/
def resultsOf (env : Env) (cfg : Config) : List TestResult :=
  match (runAllTests env cfg).1 with
  | Except.ok rs => rs
  | Except.error _ => []

/-- Modelled from the spec: the orchestrator tail that is absent from the
source files — "After all scenarios run, if any non-simulated transfers
were registered for claiming, the Orchestrator waits a fixed settlement
delay (default 180 seconds) before invoking claim processing". -/
def runWithClaims (env : Env) (cfg : Config) : M (List TestResult) :=
  M.bind (runAllTests env cfg)
    (fun rs =>
      M.bind
        (if (pendingOf rs).isEmpty then M.pure ()
         else
           M.bind (M.emit (Event.sleep settlementDelayMs))
             (fun _ => M.emit (Event.processClaims (pendingOf rs))))
        (fun _ => M.pure rs))

/-- Lower-case hexadecimal digit character, as `ethers.utils.hexValue`
renders digits. -/
def hexDigitChar (n : Nat) : Char :=
  if n < 10 then Char.ofNat (48 + n) else Char.ofNat (87 + n)

/-- Fuel-driven most-significant-first hex digit accumulator. -/
def toHexDigitsAux : Nat → Nat → List Char → List Char
  | 0, _, acc => acc
  | fuel + 1, n, acc =>
      if n < 16 then hexDigitChar n :: acc
      else toHexDigitsAux fuel (n / 16) (hexDigitChar (n % 16) :: acc)

/-- `ethers.utils.hexValue` on a nonnegative integer: minimal lower-case
hex encoding with a `0x` prefix (`hexValue 0 = "0x0"`). -/
def hexValue (n : Nat) : String :=
  "0x" ++ String.mk (toHexDigitsAux (n + 1) n [])

/-- Decimal digit accumulator over a character list. -/
def decDigitsVal : List Char → Nat → Nat
  | [], acc => acc
  | c :: cs, acc => decDigitsVal cs (acc * 10 + (c.toNat - 48))

/-- `parseInt` on a plain decimal numeric string. -/
def parseDecimal (s : String) : Nat := decDigitsVal s.data 0

/-- `nonce.startsWith('0x')`: the string's first two characters are
`0x`. -/
def isHexPrefixed (s : String) : Bool :=
  match s.data with
  | '0' :: 'x' :: _ => true
  | _ => false

/-- Modelled from the spec: Transaction Normalizer rule 2 — "If a nonce
field is present as a plain decimal numeric string without a hex prefix,
convert it to a hex-encoded string."  The implementing workaround
(`unsignedTx.nonce = ethers.utils.hexValue(parseInt(unsignedTx.nonce))`
when the nonce does not start with `0x`) is quoted in the repository's
nonce bug report but its code is not among the source files. -/
def normalizeNonce (nonce : String) : String :=
  if isHexPrefixed nonce then nonce else hexValue (parseDecimal nonce)

/-- A sample all-successful environment used to instantiate universally
quantified theorems at a concrete input. -/
def liveEnv : Env :=
  { nativeBalance := fun _ _ => Except.ok (10 ^ 30),
    erc20Balance := fun _ _ _ => Except.ok (10 ^ 30),
    routes := fun _ => Except.ok (some [⟨some "lifi", 0⟩]),
    unsignedTxOfRoute := fun _ =>
      Except.ok ⟨"0xrouteto", "0xroutedata", some "0", some 100000, none, none, none, none⟩,
    allowance := fun _ _ _ _ => Except.ok (10 ^ 30),
    approveTxOf := fun _ _ _ _ _ =>
      Except.ok ⟨"0xtokento", "0xapprovedata", none, some 46247, some "46247", none, none, none⟩,
    bridgeAssetTx := fun _ _ _ _ =>
      Except.ok ⟨"0xbridgeto", "0xbridgedata", some "0", none, none, none, none, none⟩,
    estGas := fun _ _ _ => Except.ok 50000,
    sendTx := fun _ _ => Except.ok ⟨"0xtxhash"⟩,
    waitTx := fun _ => Except.ok ⟨123, 45000⟩,
    mockHash := "0x4d6f636b4d6f636b4d6f636b4d6f636b4d6f636b4d6f636b4d6f636b4d6f63" }

/-- A sample configuration with default values (live mode, balance checks
enabled, 1.2 gas multiplier, 0.5 slippage, default amounts, ASTEST
deployed). -/
def liveConfig : Config :=
  { dryRun := false,
    skipBalanceCheck := false,
    gasMultiplier := 6 / 5,
    slippage := 1 / 2,
    amountETH := 10 ^ 16,
    amountWBTC := 10 ^ 5,
    amountOKB := 10 ^ 18,
    amountCUSTOM := 100 * 10 ^ 18,
    customTokenKatana := some "0xCustomTokenOnKatana",
    ethereumBridgeOverride := none,
    katanaBridgeOverride := none,
    okxBridgeOverride := none,
    walletAddress := "0xWallet" }

/-- `liveConfig` with `DRY_RUN=true`. -/
def dryConfig : Config := { liveConfig with dryRun := true }

/-- `liveEnv` with a Core API that finds no route (empty route list). -/
def emptyRouteEnv : Env := { liveEnv with routes := fun _ => Except.ok (some []) }

/-- Whether an event is a transaction submission. -/
def Event.isSend : Event → Bool
  | Event.sendTransaction _ _ => true
  | _ => false

/-- No event of the trace is a transaction submission. -/
def noSend (tr : List Event) : Prop := ∀ ev ∈ tr, ev.isSend = false

instance (tr : List Event) : Decidable (noSend tr) := by
  unfold noSend
  exact List.decidableBAll _ tr

theorem M.bind_of_ok {α β : Type} {x : M α} {a : α} (h : x.1 = Except.ok a) (f : α → M β) :
    M.bind x f = ((f a).1, x.2 ++ (f a).2) := by
  obtain ⟨r, tr⟩ := x
  cases r with
  | ok b => cases h; rfl
  | error e => cases h

theorem M.bind_of_error {α β : Type} {x : M α} {e : String} (h : x.1 = Except.error e)
    (f : α → M β) : M.bind x f = (Except.error e, x.2) := by
  obtain ⟨r, tr⟩ := x
  cases r with
  | ok b => cases h
  | error d => cases h; rfl

theorem M.tryCatch_of_ok {α : Type} {x : M α} {a : α} (h : x.1 = Except.ok a)
    (hnd : String → M α) : M.tryCatch x hnd = (Except.ok a, x.2) := by
  obtain ⟨r, tr⟩ := x
  cases r with
  | ok b => cases h; rfl
  | error e => cases h

theorem M.tryCatch_of_error {α : Type} {x : M α} {e : String} (h : x.1 = Except.error e)
    (hnd : String → M α) : M.tryCatch x hnd = ((hnd e).1, x.2 ++ (hnd e).2) := by
  obtain ⟨r, tr⟩ := x
  cases r with
  | ok b => cases h
  | error d => cases h; rfl

theorem M.bind_ok_inv {α β : Type} {x : M α} {f : α → M β} {b : β}
    (h : (M.bind x f).1 = Except.ok b) : ∃ a, x.1 = Except.ok a ∧ (f a).1 = Except.ok b := by
  obtain ⟨r, tr⟩ := x
  cases r with
  | ok a => exact ⟨a, rfl, h⟩
  | error e => exact absurd h (by simp [M.bind])

theorem M.tryCatch_ok_inv {α : Type} {x : M α} {hnd : String → M α} {b : α}
    (h : (M.tryCatch x hnd).1 = Except.ok b) :
    x.1 = Except.ok b ∨ ∃ e, x.1 = Except.error e ∧ (hnd e).1 = Except.ok b := by
  obtain ⟨r, tr⟩ := x
  cases r with
  | ok a =>
      left
      simpa [M.tryCatch] using h
  | error e => exact Or.inr ⟨e, rfl, h⟩

theorem M.throw_fst_ne_ok {α : Type} {e : String} {a : α} :
    (M.throw e : M α).1 ≠ Except.ok a := by
  simp [M.throw]

theorem noSend_nil : noSend [] := by
  intro ev h
  cases h

theorem noSend_append {a b : List Event} (ha : noSend a) (hb : noSend b) : noSend (a ++ b) := by
  intro ev h
  rcases List.mem_append.mp h with h' | h'
  · exact ha ev h'
  · exact hb ev h'

theorem noSend_pure {α : Type} (a : α) : noSend (M.pure a).2 := noSend_nil

theorem noSend_throw {α : Type} (e : String) : noSend (M.throw e : M α).2 := noSend_nil

theorem noSend_call {α : Type} (ev : Event) (r : Except String α) (h : ev.isSend = false) :
    noSend (M.call ev r).2 := by
  intro x hx
  simp only [M.call, List.mem_singleton] at hx
  subst hx
  exact h

theorem noSend_emit (ev : Event) (h : ev.isSend = false) : noSend (M.emit ev).2 := by
  intro x hx
  simp only [M.emit, List.mem_singleton] at hx
  subst hx
  exact h

theorem noSend_bind {α β : Type} (x : M α) (f : α → M β) (hx : noSend x.2)
    (hf : ∀ a, noSend (f a).2) : noSend (M.bind x f).2 := by
  obtain ⟨r, tr⟩ := x
  cases r with
  | ok a => exact noSend_append hx (hf a)
  | error e => exact hx

theorem noSend_tryCatch {α : Type} (x : M α) (hnd : String → M α) (hx : noSend x.2)
    (hh : ∀ e, noSend (hnd e).2) : noSend (M.tryCatch x hnd).2 := by
  obtain ⟨r, tr⟩ := x
  cases r with
  | ok a => exact hx
  | error e => exact noSend_append hx (hh e)

theorem M.bind_fst {α β : Type} {x : M α} {a : α} (h : x.1 = Except.ok a) (f : α → M β) :
    (M.bind x f).1 = (f a).1 := by
  rw [M.bind_of_ok h]

theorem M.bind_snd {α β : Type} {x : M α} {a : α} (h : x.1 = Except.ok a) (f : α → M β) :
    (M.bind x f).2 = x.2 ++ (f a).2 := by
  rw [M.bind_of_ok h]

theorem checkBalance_noSend (env : Env) (cfg : Config) (c : ChainName) (s : TokenSym)
    (amt : Nat) : noSend (checkBalance env cfg c s amt).2 := by
  unfold checkBalance
  apply noSend_tryCatch
  · cases TOKENS cfg s c with
    | none => exact noSend_throw _
    | some token =>
        apply noSend_bind
        · split
          · exact noSend_call _ _ rfl
          · exact noSend_call _ _ rfl
        · intro a
          exact noSend_pure _
  · intro e
    exact noSend_pure _

theorem approveToken_noSend (env : Env) (cfg : Config) (c : ChainName) (ta : String)
    (sp : Option String) (amt : Nat) (h : cfg.dryRun = true) :
    noSend (approveToken env cfg c ta sp amt).2 := by
  unfold approveToken
  apply noSend_tryCatch
  · apply noSend_bind
    · exact noSend_call _ _ rfl
    · intro a
      by_cases hle : amt ≤ a
      · simp only [if_pos hle]
        exact noSend_pure _
      · simp only [if_neg hle, h, if_true]
        exact noSend_pure _
  · intro e
    exact noSend_throw _

theorem maybeApprove_noSend (env : Env) (cfg : Config) (c : ChainName) (tok : TokenInfo)
    (ta : String) (amt : Nat) (h : cfg.dryRun = true) :
    noSend (maybeApprove env cfg c tok ta amt).2 := by
  unfold maybeApprove
  split
  · exact approveToken_noSend env cfg c ta _ amt h
  · exact noSend_pure _

theorem primaryRoute_noSend (env : Env) (cfg : Config) (a b : ChainName) (tok : TokenInfo)
    (fta tta : String) (amt : Nat) (h : cfg.dryRun = true) :
    noSend (primaryRoute env cfg a b tok fta tta amt).2 := by
  unfold primaryRoute
  apply noSend_bind
  · exact noSend_call _ _ rfl
  · intro ropt
    match ropt with
    | none => exact noSend_throw _
    | some [] => exact noSend_throw _
    | some (r :: rest) =>
        apply noSend_bind
        · exact maybeApprove_noSend env cfg a tok fta amt h
        · intro u
          exact noSend_call _ _ rfl

theorem fallbackRoute_noSend (env : Env) (cfg : Config) (a b : ChainName) (tok : TokenInfo)
    (fta : String) (amt : Nat) (h : cfg.dryRun = true) :
    noSend (fallbackRoute env cfg a b tok fta amt).2 := by
  unfold fallbackRoute
  apply noSend_bind
  · exact maybeApprove_noSend env cfg a tok fta amt h
  · intro u
    exact noSend_call _ _ rfl

theorem resolveRoute_noSend (env : Env) (cfg : Config) (a b : ChainName) (tok : TokenInfo)
    (fta tta : String) (amt : Nat) (h : cfg.dryRun = true) :
    noSend (resolveRoute env cfg a b tok fta tta amt).2 := by
  unfold resolveRoute
  apply noSend_tryCatch
  · apply noSend_bind
    · exact primaryRoute_noSend env cfg a b tok fta tta amt h
    · intro tx
      exact noSend_pure _
  · intro e
    apply noSend_bind
    · exact fallbackRoute_noSend env cfg a b tok fta amt h
    · intro tx
      exact noSend_pure _

theorem executeTransaction_dry (env : Env) (cfg : Config) (tx : UnsignedTx) (fc : ChainName)
    (h : cfg.dryRun = true) :
    executeTransaction env cfg tx fc =
      (Except.ok ⟨env.mockHash, none, none, true⟩, []) := by
  unfold executeTransaction
  simp only [h, if_true]
  rfl

theorem balanceGate_noSend (env : Env) (cfg : Config) (c : ChainName) (s : TokenSym)
    (amt : Nat) : noSend (balanceGate env cfg c s amt).2 := by
  unfold balanceGate
  split
  · apply noSend_bind
    · exact checkBalance_noSend env cfg c s amt
    · intro b
      split
      · exact noSend_throw _
      · exact noSend_pure _
  · exact noSend_pure _

theorem scenarioBody_noSend (env : Env) (cfg : Config) (a b : ChainName) (s : TokenSym)
    (h : cfg.dryRun = true) : noSend (scenarioBody env cfg a b s).2 := by
  unfold scenarioBody
  split
  · split
    · exact noSend_throw _
    · apply noSend_bind
      · exact balanceGate_noSend env cfg a s _
      · intro u
        apply noSend_bind
        · exact resolveRoute_noSend env cfg a b _ _ _ _ h
        · intro txm
          apply noSend_bind
          · rw [executeTransaction_dry env cfg txm.1 a h]
            exact noSend_nil
          · intro r
            exact noSend_pure _
  · exact noSend_throw _

theorem testBridgeScenario_noSend (env : Env) (cfg : Config) (a b : ChainName) (s : TokenSym)
    (h : cfg.dryRun = true) : noSend (testBridgeScenario env cfg a b s).2 := by
  unfold testBridgeScenario
  apply noSend_tryCatch
  · exact scenarioBody_noSend env cfg a b s h
  · intro e
    exact noSend_pure _

theorem runScenarios_noSend (env : Env) (cfg : Config) (h : cfg.dryRun = true) :
    ∀ l : List Scenario, noSend (runScenarios env cfg l).2 := by
  intro l
  induction l with
  | nil => exact noSend_nil
  | cons s rest ih =>
      unfold runScenarios
      split
      · apply noSend_bind
        · exact ih
        · intro rs
          exact noSend_pure _
      · apply noSend_bind
        · exact testBridgeScenario_noSend env cfg s.fromC s.toC s.token h
        · intro r
          apply noSend_bind
          · split
            · exact noSend_pure _
            · exact noSend_emit _ rfl
          · intro u
            apply noSend_bind
            · exact ih
            · intro rs
              exact noSend_pure _

theorem scenarioBody_ok_inv {env : Env} {cfg : Config} {fc tc : ChainName} {sym : TokenSym}
    {r : TestResult} (h : (scenarioBody env cfg fc tc sym).1 = Except.ok r) :
    ∃ tx method r0, (executeTransaction env cfg tx fc).1 = Except.ok r0 ∧
      r = successResult fc tc sym (testAmounts cfg sym) method r0 := by
  unfold scenarioBody at h
  split at h
  · split at h
    · exact absurd h (by simp [M.throw])
    · obtain ⟨u, hbal, h1⟩ := M.bind_ok_inv h
      obtain ⟨txm, hres, h2⟩ := M.bind_ok_inv h1
      obtain ⟨r0, hexec, h3⟩ := M.bind_ok_inv h2
      refine ⟨txm.1, txm.2, r0, hexec, ?_⟩
      simpa [M.pure] using h3.symm
  · exact absurd h (by simp [M.throw])

theorem testBridgeScenario_total (env : Env) (cfg : Config) (fc tc : ChainName)
    (sym : TokenSym) : ∃ r, (testBridgeScenario env cfg fc tc sym).1 = Except.ok r := by
  unfold testBridgeScenario
  rcases hb : (scenarioBody env cfg fc tc sym).1 with e | a
  · refine ⟨failedResult fc tc sym e, ?_⟩
    rw [M.tryCatch_of_error hb]
    rfl
  · refine ⟨a, ?_⟩
    rw [M.tryCatch_of_ok hb]

theorem runScenarios_total (env : Env) (cfg : Config) :
    ∀ l : List Scenario,
      ∃ rs, (runScenarios env cfg l).1 = Except.ok rs ∧ rs.length = l.length := by
  intro l
  induction l with
  | nil => exact ⟨[], rfl, rfl⟩
  | cons s rest ih =>
      obtain ⟨rs, hres, hlen⟩ := ih
      unfold runScenarios
      split
      · refine ⟨skippedResult s :: rs, ?_, by simp [hlen]⟩
        rw [M.bind_fst hres]
        rfl
      · obtain ⟨r, hr⟩ := testBridgeScenario_total env cfg s.fromC s.toC s.token
        refine ⟨r :: rs, ?_, by simp [hlen]⟩
        rw [M.bind_fst hr]
        have hu : (if rest.isEmpty then M.pure () else M.emit (Event.sleep 3000)).1 =
            Except.ok () := by
          split
          · rfl
          · rfl
        rw [M.bind_fst hu]
        rw [M.bind_fst hres]
        rfl

/-- C1: a scenario whose source-chain token descriptor is non-native with a
null (unresolved) address fails fast: `testBridgeScenario` returns the
FAILED record carrying the token-not-resolved message and its trace is
empty — no route query, no approval, no transaction submission is
attempted, for every environment and configuration. -/
theorem claim_C1_unresolved_source_fails_fast (env : Env) (cfg : Config)
    (fc tc : ChainName) (sym : TokenSym) (fromTok toTok : TokenInfo)
    (hF : TOKENS cfg sym fc = some fromTok) (hT : TOKENS cfg sym tc = some toTok)
    (hN : fromTok.isNative = false) (hA : fromTok.address = none) :
    testBridgeScenario env cfg fc tc sym =
      (Except.ok (failedResult fc tc sym (msgNotResolved sym fc)), []) := by
  have hbody : scenarioBody env cfg fc tc sym = M.throw (msgNotResolved sym fc) := by
    unfold scenarioBody
    rw [hF, hT]
    simp only [if_pos (And.intro hN hA)]
  unfold testBridgeScenario
  rw [hbody]
  rfl

/-- C1 witness: the WBTC katana → base scenario (WBTC unresolved on
Katana) under the sample environment. -/
theorem claim_C1_unresolved_source_fails_fast_witness :
    testBridgeScenario liveEnv liveConfig ChainName.katana ChainName.base TokenSym.WBTC =
      (Except.ok (failedResult ChainName.katana ChainName.base TokenSym.WBTC
        (msgNotResolved TokenSym.WBTC ChainName.katana)), []) :=
  claim_C1_unresolved_source_fails_fast liveEnv liveConfig ChainName.katana ChainName.base
    TokenSym.WBTC ⟨none, "WBTC", 8, false⟩
    ⟨some "0x0555E30da8f98308EdB960aa94C0Db47230d2B9c", "WBTC", 8, false⟩
    rfl rfl rfl rfl

/-- C4: when the queried allowance already covers the requested amount,
`approveToken` returns immediately having performed only the allowance
query — zero transactions — and a repeated call with the same arguments
again performs only the allowance query, so repeated calls within a run
send no further transactions. -/
theorem claim_C4_approval_short_circuit (env : Env) (cfg : Config) (c : ChainName)
    (ta : String) (sp : Option String) (amt n : Nat)
    (hA : env.allowance ta (CHAINS cfg c).chainId cfg.walletAddress sp = Except.ok n)
    (hle : amt ≤ n) :
    approveToken env cfg c ta sp amt =
      (Except.ok (), [Event.getAllowance ta (CHAINS cfg c).chainId cfg.walletAddress sp]) ∧
    M.bind (approveToken env cfg c ta sp amt) (fun _ => approveToken env cfg c ta sp amt) =
      (Except.ok (), [Event.getAllowance ta (CHAINS cfg c).chainId cfg.walletAddress sp,
        Event.getAllowance ta (CHAINS cfg c).chainId cfg.walletAddress sp]) := by
  have h1 : approveToken env cfg c ta sp amt =
      (Except.ok (), [Event.getAllowance ta (CHAINS cfg c).chainId cfg.walletAddress sp]) := by
    unfold approveToken
    simp [M.call, M.bind, M.tryCatch, M.pure, hA, hle]
  refine ⟨h1, ?_⟩
  rw [h1]
  simp [M.bind]

/-- C4 witness: the sample environment's allowance (10^30) covers an
approval request of 5 on Katana. -/
theorem claim_C4_approval_short_circuit_witness :
    approveToken liveEnv liveConfig ChainName.katana "0xToken"
        (some "0x2a3DD3EB832aF982ec71669E178424b10Dca2EDe") 5 =
      (Except.ok (), [Event.getAllowance "0xToken" 747474 "0xWallet"
        (some "0x2a3DD3EB832aF982ec71669E178424b10Dca2EDe")]) :=
  (claim_C4_approval_short_circuit liveEnv liveConfig ChainName.katana "0xToken"
    (some "0x2a3DD3EB832aF982ec71669E178424b10Dca2EDe") 5 (10 ^ 30) rfl
    (by norm_num)).1

/-- C6: every error raised inside a scenario is caught at the scenario
boundary and converted into a FAILED record carrying the error message
(the trace of work already done is kept), and the orchestrator always
completes the whole ordered list: `runAllTests` never throws and appends
exactly one record per scenario (18 in total), for every environment and
configuration. -/
theorem claim_C6_orchestrator_isolation (env : Env) (cfg : Config) :
    (∃ rs, (runAllTests env cfg).1 = Except.ok rs ∧ rs.length = 18) ∧
    (∀ fc tc sym e, (scenarioBody env cfg fc tc sym).1 = Except.error e →
      testBridgeScenario env cfg fc tc sym =
        (Except.ok (failedResult fc tc sym e), (scenarioBody env cfg fc tc sym).2)) := by
  constructor
  · obtain ⟨rs, hok, hlen⟩ := runScenarios_total env cfg testScenarios
    exact ⟨rs, hok, by rw [hlen]; rfl⟩
  · intro fc tc sym e he
    unfold testBridgeScenario
    rw [M.tryCatch_of_error he]
    simp [M.pure]

/-- C6 witness: under the sample environment the run yields 18 records,
and the WBTC katana → base scenario's internal error is converted into the
FAILED record. -/
theorem claim_C6_orchestrator_isolation_witness :
    (∃ rs, (runAllTests liveEnv liveConfig).1 = Except.ok rs ∧ rs.length = 18) ∧
    testBridgeScenario liveEnv liveConfig ChainName.katana ChainName.base TokenSym.WBTC =
      (Except.ok (failedResult ChainName.katana ChainName.base TokenSym.WBTC
          (msgNotResolved TokenSym.WBTC ChainName.katana)),
        (scenarioBody liveEnv liveConfig ChainName.katana ChainName.base TokenSym.WBTC).2) :=
  ⟨(claim_C6_orchestrator_isolation liveEnv liveConfig).1,
    (claim_C6_orchestrator_isolation liveEnv liveConfig).2 ChainName.katana ChainName.base
      TokenSym.WBTC (msgNotResolved TokenSym.WBTC ChainName.katana) (by rfl)⟩

/-- C7: after all scenarios have run, if any non-simulated (live
`SUCCESS`) transfer was registered for claiming, the orchestrator's trace
ends with the fixed settlement wait (180 seconds) followed by the
claim-processing invocation; with no pending registrations nothing is
appended.  The claim phase is modelled from the spec (its code is not
among the source files). -/
theorem claim_C7_settlement_delay_before_claims (env : Env) (cfg : Config) :
    settlementDelayMs = 180000 ∧
    (pendingRun env cfg ≠ [] →
      (runWithClaims env cfg).2 =
        (runAllTests env cfg).2 ++
          [Event.sleep settlementDelayMs, Event.processClaims (pendingRun env cfg)]) ∧
    (pendingRun env cfg = [] → (runWithClaims env cfg).2 = (runAllTests env cfg).2) := by
  refine ⟨rfl, ?_⟩
  rcases hrun : (runAllTests env cfg).1 with e | rs
  · have hpr : pendingRun env cfg = [] := by simp [pendingRun, hrun]
    constructor
    · intro hne
      exact absurd hpr hne
    · intro _
      unfold runWithClaims
      rw [M.bind_of_error hrun]
  · have hpr : pendingRun env cfg = pendingOf rs := by simp [pendingRun, hrun]
    rcases hpe : (pendingOf rs).isEmpty with _ | _
    · have hne : pendingOf rs ≠ [] := by
        intro hcontra
        rw [hcontra] at hpe
        cases hpe
      constructor
      · intro _
        unfold runWithClaims
        rw [M.bind_snd hrun]
        rw [hpr]
        simp [M.bind, M.emit, M.pure, hpe]
      · intro hz
        rw [hpr] at hz
        exact absurd hz hne
    · have hz : pendingOf rs = [] := List.isEmpty_iff.mp hpe
      constructor
      · intro hne
        rw [hpr] at hne
        exact absurd hz hne
      · intro _
        unfold runWithClaims
        rw [M.bind_snd hrun]
        simp [M.bind, M.pure, hpe]

/-- C7 witness: the sample live environment registers pending claims, and
the run trace ends with the 180-second wait followed by claim
processing. -/
theorem claim_C7_settlement_delay_before_claims_witness :
    (runWithClaims liveEnv liveConfig).2 =
      (runAllTests liveEnv liveConfig).2 ++
        [Event.sleep settlementDelayMs,
         Event.processClaims (pendingRun liveEnv liveConfig)] :=
  (claim_C7_settlement_delay_before_claims liveEnv liveConfig).2.1 (by decide)

/-- C3: under dry-run configuration, for every environment: the executor
returns immediately with the synthetic hash and the simulated flag set and
an empty trace; no transaction-submission call occurs anywhere in the
whole run (approvals included); and a scenario that does not fail records
the dry-run success status. -/
theorem claim_C3_dry_run_no_submission (env : Env) (cfg : Config) (tx : UnsignedTx)
    (fc a b : ChainName) (sym : TokenSym) (h : cfg.dryRun = true) :
    executeTransaction env cfg tx fc =
      (Except.ok ⟨env.mockHash, none, none, true⟩, []) ∧
    noSend (runAllTests env cfg).2 ∧
    (∀ r, (testBridgeScenario env cfg a b sym).1 = Except.ok r →
      r.status = "SUCCESS (DRY RUN)" ∨ r.status = "FAILED") := by
  refine ⟨executeTransaction_dry env cfg tx fc h,
    runScenarios_noSend env cfg h testScenarios, ?_⟩
  intro r hr
  unfold testBridgeScenario at hr
  rcases M.tryCatch_ok_inv hr with hok | ⟨e, herr, hh⟩
  · obtain ⟨tx', method, r0, hex, hrst⟩ := scenarioBody_ok_inv hok
    left
    have hdry := executeTransaction_dry env cfg tx' a h
    have hr0 : r0 = ⟨env.mockHash, none, none, true⟩ := by
      have : (executeTransaction env cfg tx' a).1 =
          Except.ok (⟨env.mockHash, none, none, true⟩ : ExecResult) := by
        rw [hdry]
      rw [this] at hex
      exact (Except.ok.injEq _ _).mp hex.symm
    subst hrst
    simp [successResult, hr0]
  · have hr' : r = failedResult a b sym e := by simpa [M.pure] using hh.symm
    subst hr'
    right
    rfl

/-- C3 witness: the dry-run configuration at a concrete transaction and
the okx → katana ETH scenario. -/
theorem claim_C3_dry_run_no_submission_witness :
    executeTransaction liveEnv dryConfig
        ⟨"0xrouteto", "0xroutedata", some "0", some 100000, none, none, none, none⟩
        ChainName.base =
      (Except.ok ⟨liveEnv.mockHash, none, none, true⟩, []) ∧
    noSend (runAllTests liveEnv dryConfig).2 ∧
    (∀ r, (testBridgeScenario liveEnv dryConfig ChainName.okx ChainName.katana
        TokenSym.ETH).1 = Except.ok r →
      r.status = "SUCCESS (DRY RUN)" ∨ r.status = "FAILED") :=
  claim_C3_dry_run_no_submission liveEnv dryConfig
    ⟨"0xrouteto", "0xroutedata", some "0", some 100000, none, none, none, none⟩
    ChainName.base ChainName.okx ChainName.katana TokenSym.ETH rfl

theorem mem_bind_call_head {α β : Type} (ev : Event) (r : Except String α) (f : α → M β) :
    ev ∈ (M.bind (M.call ev r) f).2 := by
  cases r with
  | ok a => simp [M.bind, M.call]
  | error e => simp [M.bind, M.call]

theorem mem_send_tail {β : Type} (cid : Nat) (sent : UnsignedTx)
    (r : Except String TxResponse) (f : TxResponse → M β)
    (hf : ∀ resp, noSend (f resp).2) (c' : Nat) (s' : UnsignedTx)
    (hmem : Event.sendTransaction c' s' ∈
      (M.bind (M.call (Event.sendTransaction cid sent) r) f).2) :
    c' = cid ∧ s' = sent := by
  cases r with
  | ok resp =>
      have : Event.sendTransaction c' s' ∈
          Event.sendTransaction cid sent :: (f resp).2 := by
        simpa [M.bind, M.call] using hmem
      rcases List.mem_cons.mp this with heq | htail
      · exact ⟨(Event.sendTransaction.injEq _ _ _ _).mp heq |>.1,
          (Event.sendTransaction.injEq _ _ _ _).mp heq |>.2⟩
      · have := hf resp _ htail
        simp [Event.isSend] at this
  | error e =>
      have : Event.sendTransaction c' s' ∈ [Event.sendTransaction cid sent] := by
        simpa [M.bind, M.call] using hmem
      rw [List.mem_singleton] at this
      exact ⟨(Event.sendTransaction.injEq _ _ _ _).mp this |>.1,
        (Event.sendTransaction.injEq _ _ _ _).mp this |>.2⟩

theorem exec_wait_tail_noSend (env : Env) (resp : TxResponse) :
    noSend (M.bind (M.call (Event.waitForReceipt resp.hash) (env.waitTx resp.hash))
      (fun rcpt => M.pure (⟨resp.hash, some rcpt.blockNumber, some rcpt.gasUsed, false⟩ :
        ExecResult))).2 := by
  apply noSend_bind
  · exact noSend_call _ _ rfl
  · intro rcpt
    exact noSend_pure _

/-- C5: in live mode the submitted gas limit is the transaction's own
value when present, otherwise the estimation result, otherwise the fixed
800000 default when estimation throws — in each case multiplied by
`Math.floor(gasMultiplier * 100)` and integer-divided by 100 — and in the
estimation-failure case the submission is still attempted (the executor
does not abort). -/
theorem claim_C5_gas_resolution (env : Env) (cfg : Config) (tx : UnsignedTx)
    (fc : ChainName) (h : cfg.dryRun = false) :
    (∀ g, tx.gasLimit = some g →
      Event.sendTransaction (CHAINS cfg fc).chainId
          ⟨tx.toAddr, tx.data, some (jsOrZero tx.value),
            some (g * gasMulFactor cfg / 100), none, none, none, none⟩
        ∈ (executeTransaction env cfg tx fc).2) ∧
    (∀ est, tx.gasLimit = none →
      env.estGas tx.toAddr tx.data (jsOrZero tx.value) = Except.ok est →
      Event.sendTransaction (CHAINS cfg fc).chainId
          ⟨tx.toAddr, tx.data, some (jsOrZero tx.value),
            some (est * gasMulFactor cfg / 100), none, none, none, none⟩
        ∈ (executeTransaction env cfg tx fc).2) ∧
    (∀ e, tx.gasLimit = none →
      env.estGas tx.toAddr tx.data (jsOrZero tx.value) = Except.error e →
      Event.sendTransaction (CHAINS cfg fc).chainId
          ⟨tx.toAddr, tx.data, some (jsOrZero tx.value),
            some (800000 * gasMulFactor cfg / 100), none, none, none, none⟩
        ∈ (executeTransaction env cfg tx fc).2) := by
  have hne : ¬(cfg.dryRun = true) := by simp [h]
  refine ⟨?_, ?_, ?_⟩
  · intro g hg
    unfold executeTransaction
    rw [if_neg hne, hg]
    have hG : (M.pure g : M Nat).1 = Except.ok g := rfl
    rw [M.bind_snd hG]
    exact List.mem_append_right _ (mem_bind_call_head _ _ _)
  · intro est hg hest
    unfold executeTransaction
    rw [if_neg hne, hg]
    have hG : (M.tryCatch
        (M.call (Event.estimateGas tx.toAddr tx.data (jsOrZero tx.value))
          (env.estGas tx.toAddr tx.data (jsOrZero tx.value)))
        (fun _ => M.pure 800000)).1 = Except.ok est := by
      simp [M.call, M.tryCatch, hest]
    rw [M.bind_snd hG]
    exact List.mem_append_right _ (mem_bind_call_head _ _ _)
  · intro e hg hest
    unfold executeTransaction
    rw [if_neg hne, hg]
    have hG : (M.tryCatch
        (M.call (Event.estimateGas tx.toAddr tx.data (jsOrZero tx.value))
          (env.estGas tx.toAddr tx.data (jsOrZero tx.value)))
        (fun _ => M.pure 800000)).1 = Except.ok 800000 := by
      simp [M.call, M.tryCatch, M.pure, hest]
    rw [M.bind_snd hG]
    exact List.mem_append_right _ (mem_bind_call_head _ _ _)

/-- C5 witness: a transaction without a gas limit whose estimation
succeeds at 50000 under the default 1.2 multiplier is submitted with
gas 60000. -/
theorem claim_C5_gas_resolution_witness :
    Event.sendTransaction 8453
        ⟨"0xbridgeto", "0xbridgedata", some "0", some (50000 * gasMulFactor liveConfig / 100),
          none, none, none, none⟩
      ∈ (executeTransaction liveEnv liveConfig
          ⟨"0xbridgeto", "0xbridgedata", some "0", none, none, none, none, none⟩
          ChainName.base).2 :=
  (claim_C5_gas_resolution liveEnv liveConfig
    ⟨"0xbridgeto", "0xbridgedata", some "0", none, none, none, none, none⟩
    ChainName.base rfl).2.1 50000 rfl rfl

/-- C10: in live mode every transaction object the executor hands to the
signer is exactly the four-field literal `{to, data, value, gasLimit}`
built from the unsigned transaction: `value` defaults to `"0"` when
absent, `gasLimit` is the resolved-and-multiplied gas, and any `nonce`,
`gasPrice`, `from` or `chainId` present on the unsigned transaction is
dropped (the submitted object carries none of them). -/
theorem claim_C10_executor_field_whitelist (env : Env) (cfg : Config) (tx : UnsignedTx)
    (fc : ChainName) (h : cfg.dryRun = false) (cid : Nat) (stx : UnsignedTx)
    (hmem : Event.sendTransaction cid stx ∈ (executeTransaction env cfg tx fc).2) :
    cid = (CHAINS cfg fc).chainId ∧ stx.toAddr = tx.toAddr ∧ stx.data = tx.data ∧
    stx.value = some (jsOrZero tx.value) ∧ (∃ g, stx.gasLimit = some g) ∧
    stx.nonce = none ∧ stx.gasPrice = none ∧ stx.fromAddr = none ∧
    stx.txChainId = none := by
  have hne : ¬(cfg.dryRun = true) := by simp [h]
  unfold executeTransaction at hmem
  rw [if_neg hne] at hmem
  have main : ∀ g0 : Nat,
      Event.sendTransaction cid stx ∈
        ((fun g0 =>
          let g := g0 * gasMulFactor cfg / 100
          let sent : UnsignedTx :=
            { toAddr := tx.toAddr, data := tx.data, value := some (jsOrZero tx.value),
              gasLimit := some g, nonce := none, gasPrice := none, fromAddr := none,
              txChainId := none }
          M.bind (M.call (Event.sendTransaction (CHAINS cfg fc).chainId sent)
              (env.sendTx (CHAINS cfg fc).chainId sent))
            (fun resp =>
              M.bind (M.call (Event.waitForReceipt resp.hash) (env.waitTx resp.hash))
                (fun rcpt =>
                  M.pure { hash := resp.hash, blockNumber := some rcpt.blockNumber,
                           gasUsed := some rcpt.gasUsed, mock := false }))) g0 : M ExecResult).2 →
      cid = (CHAINS cfg fc).chainId ∧ stx.toAddr = tx.toAddr ∧ stx.data = tx.data ∧
      stx.value = some (jsOrZero tx.value) ∧ (∃ g, stx.gasLimit = some g) ∧
      stx.nonce = none ∧ stx.gasPrice = none ∧ stx.fromAddr = none ∧
      stx.txChainId = none := by
    intro g0 hm
    have hs := mem_send_tail (CHAINS cfg fc).chainId
      ⟨tx.toAddr, tx.data, some (jsOrZero tx.value),
        some (g0 * gasMulFactor cfg / 100), none, none, none, none⟩
      (env.sendTx (CHAINS cfg fc).chainId
        ⟨tx.toAddr, tx.data, some (jsOrZero tx.value),
          some (g0 * gasMulFactor cfg / 100), none, none, none, none⟩)
      _ (fun resp => exec_wait_tail_noSend env resp) cid stx hm
    obtain ⟨hc, hsx⟩ := hs
    subst hsx
    exact ⟨hc, rfl, rfl, rfl, ⟨g0 * gasMulFactor cfg / 100, rfl⟩, rfl, rfl, rfl, rfl⟩
  rcases hg : tx.gasLimit with _ | g <;> rw [hg] at hmem
  · rcases hest : env.estGas tx.toAddr tx.data (jsOrZero tx.value) with e | est <;>
      rw [show (M.tryCatch
          (M.call (Event.estimateGas tx.toAddr tx.data (jsOrZero tx.value))
            (env.estGas tx.toAddr tx.data (jsOrZero tx.value)))
          (fun _ => M.pure 800000)) = _ from rfl] at hmem
    · have hGv : (M.tryCatch
          (M.call (Event.estimateGas tx.toAddr tx.data (jsOrZero tx.value))
            (env.estGas tx.toAddr tx.data (jsOrZero tx.value)))
          (fun _ => M.pure 800000)) = (Except.ok 800000,
            [Event.estimateGas tx.toAddr tx.data (jsOrZero tx.value)]) := by
        simp [M.call, M.tryCatch, M.pure, hest]
      rw [hGv] at hmem
      rw [M.bind_of_ok (x := (Except.ok 800000,
        [Event.estimateGas tx.toAddr tx.data (jsOrZero tx.value)])) rfl] at hmem
      rcases List.mem_append.mp hmem with hin | hin
      · rw [List.mem_singleton] at hin
        cases hin
      · exact main 800000 hin
    · have hGv : (M.tryCatch
          (M.call (Event.estimateGas tx.toAddr tx.data (jsOrZero tx.value))
            (env.estGas tx.toAddr tx.data (jsOrZero tx.value)))
          (fun _ => M.pure 800000)) = (Except.ok est,
            [Event.estimateGas tx.toAddr tx.data (jsOrZero tx.value)]) := by
        simp [M.call, M.tryCatch, hest]
      rw [hGv] at hmem
      rw [M.bind_of_ok (x := (Except.ok est,
        [Event.estimateGas tx.toAddr tx.data (jsOrZero tx.value)])) rfl] at hmem
      rcases List.mem_append.mp hmem with hin | hin
      · rw [List.mem_singleton] at hin
        cases hin
      · exact main est hin
  · rw [M.bind_of_ok (x := (M.pure g : M Nat)) rfl] at hmem
    rcases List.mem_append.mp hmem with hin | hin
    · cases hin
    · exact main g hin

/-- C10 witness: a transaction carrying a decimal nonce, a gas price, a
`from` and a chain id is submitted with all four dropped. -/
theorem claim_C10_executor_field_whitelist_witness :
    (511 : Nat) = (CHAINS liveConfig ChainName.okx).chainId ∨
    ((196 : Nat) = (CHAINS liveConfig ChainName.okx).chainId ∧
      "0xtokento" = "0xtokento" ∧ "0xapprovedata" = "0xapprovedata" ∧
      (some "0" : Option String) = some (jsOrZero none) ∧
      (∃ g, (some (46247 * gasMulFactor liveConfig / 100) : Option Nat) = some g) ∧
      (none : Option String) = none ∧ (none : Option String) = none ∧
      (none : Option String) = none ∧ (none : Option Nat) = none) := by
  right
  have hmem : Event.sendTransaction 196
      ⟨"0xtokento", "0xapprovedata", some "0", some (46247 * gasMulFactor liveConfig / 100),
        none, none, none, none⟩ ∈
      (executeTransaction liveEnv liveConfig
        ⟨"0xtokento", "0xapprovedata", none, some 46247, some "46247", some "1000",
          some "0xWallet", some 196⟩ ChainName.okx).2 :=
    List.mem_append_right _ (mem_bind_call_head _ _ _)
  have h := claim_C10_executor_field_whitelist liveEnv liveConfig
    ⟨"0xtokento", "0xapprovedata", none, some 46247, some "46247", some "1000", some "0xWallet",
      some 196⟩ ChainName.okx rfl 196
    ⟨"0xtokento", "0xapprovedata", some "0", some (46247 * gasMulFactor liveConfig / 100),
      none, none, none, none⟩ hmem
  exact ⟨h.1, h.2.1, h.2.2.1, h.2.2.2.1, h.2.2.2.2.1, h.2.2.2.2.2.1, h.2.2.2.2.2.2.1,
    h.2.2.2.2.2.2.2.1, h.2.2.2.2.2.2.2.2⟩

/-- C2: when the primary (Core API) attempt throws — null/empty route
list, or any error during route discovery, approval or transaction
building — the resolver always runs the fallback Native-Bridge path
before the scenario can fail: the resolver's trace is the primary trace
followed by the whole fallback trace, its outcome is exactly the
fallback's outcome tagged `"Native Bridge"` (so it only fails if the
fallback also failed), and whenever the fallback's approval step succeeds
the `buildBridgeAsset` request against the chain's fixed bridge address
with the destination network identifier, the wallet as destination
address, the amount, the token address and the force-refresh flag set is
in the trace; when the primary attempt succeeds the recorded method is
`"Core API"`. -/
theorem claim_C2_fallback_always_attempted (env : Env) (cfg : Config)
    (fc tc : ChainName) (fromTok : TokenInfo) (fta tta : String) (amt : Nat) :
    (∀ e, (primaryRoute env cfg fc tc fromTok fta tta amt).1 = Except.error e →
      (resolveRoute env cfg fc tc fromTok fta tta amt).2 =
        (primaryRoute env cfg fc tc fromTok fta tta amt).2 ++
          (fallbackRoute env cfg fc tc fromTok fta amt).2 ∧
      (resolveRoute env cfg fc tc fromTok fta tta amt).1 =
        (fallbackRoute env cfg fc tc fromTok fta amt).1.map
          (fun tx => (tx, "Native Bridge")) ∧
      ((maybeApprove env cfg fc fromTok fta amt).1 = Except.ok () →
        Event.buildBridgeAsset (CHAINS cfg fc).bridgeAddress (CHAINS cfg fc).chainId
            ⟨(CHAINS cfg tc).networkId, cfg.walletAddress, amt, fta, true⟩ cfg.walletAddress
          ∈ (resolveRoute env cfg fc tc fromTok fta tta amt).2)) ∧
    (∀ tx, (primaryRoute env cfg fc tc fromTok fta tta amt).1 = Except.ok tx →
      resolveRoute env cfg fc tc fromTok fta tta amt =
        (Except.ok (tx, "Core API"),
          (primaryRoute env cfg fc tc fromTok fta tta amt).2)) := by
  constructor
  · intro e hp
    have hb : (M.bind (primaryRoute env cfg fc tc fromTok fta tta amt)
        (fun tx => M.pure (tx, "Core API"))) =
        (Except.error e, (primaryRoute env cfg fc tc fromTok fta tta amt).2) :=
      M.bind_of_error hp _
    have hres : resolveRoute env cfg fc tc fromTok fta tta amt =
        ((M.bind (fallbackRoute env cfg fc tc fromTok fta amt)
            (fun tx => M.pure (tx, "Native Bridge"))).1,
          (primaryRoute env cfg fc tc fromTok fta tta amt).2 ++
            (M.bind (fallbackRoute env cfg fc tc fromTok fta amt)
              (fun tx => M.pure (tx, "Native Bridge"))).2) := by
      unfold resolveRoute
      rw [M.tryCatch_of_error (x := M.bind (primaryRoute env cfg fc tc fromTok fta tta amt)
        (fun tx => M.pure (tx, "Core API"))) (by rw [hb])]
      rw [hb]
    have hfb1 : (M.bind (fallbackRoute env cfg fc tc fromTok fta amt)
        (fun tx => M.pure (tx, "Native Bridge"))).1 =
        (fallbackRoute env cfg fc tc fromTok fta amt).1.map
          (fun tx => (tx, "Native Bridge")) := by
      rcases hf : (fallbackRoute env cfg fc tc fromTok fta amt).1 with e2 | tx
      · rw [M.bind_of_error hf]
        rfl
      · rw [M.bind_fst hf]
        rfl
    have hfb2 : (M.bind (fallbackRoute env cfg fc tc fromTok fta amt)
        (fun tx => M.pure (tx, "Native Bridge"))).2 =
        (fallbackRoute env cfg fc tc fromTok fta amt).2 := by
      rcases hf : (fallbackRoute env cfg fc tc fromTok fta amt).1 with e2 | tx
      · rw [M.bind_of_error hf]
      · rw [M.bind_snd hf]
        simp [M.pure]
    refine ⟨?_, ?_, ?_⟩
    · rw [hres]
      rw [hfb2]
    · rw [hres]
      exact hfb1
    · intro hma
      have hbba : Event.buildBridgeAsset (CHAINS cfg fc).bridgeAddress (CHAINS cfg fc).chainId
          ⟨(CHAINS cfg tc).networkId, cfg.walletAddress, amt, fta, true⟩ cfg.walletAddress
          ∈ (fallbackRoute env cfg fc tc fromTok fta amt).2 := by
        unfold fallbackRoute
        rw [M.bind_snd hma]
        exact List.mem_append_right _ (by simp [M.call])
      rw [hres, hfb2]
      exact List.mem_append_right _ hbba
  · intro tx hp
    have hb : (M.bind (primaryRoute env cfg fc tc fromTok fta tta amt)
        (fun tx => M.pure (tx, "Core API"))) =
        (Except.ok (tx, "Core API"),
          (primaryRoute env cfg fc tc fromTok fta tta amt).2) := by
      rw [M.bind_of_ok hp]
      simp [M.pure]
    unfold resolveRoute
    rw [M.tryCatch_of_ok (x := M.bind (primaryRoute env cfg fc tc fromTok fta tta amt)
      (fun tx => M.pure (tx, "Core API"))) (by rw [hb])]
    rw [hb]

/-- C2 witness: an environment whose Core API returns an empty route list
for the base → katana ETH transfer; the resolver's trace extends into the
fallback and contains the `buildBridgeAsset` request against Base's
bridge address (null) with Katana's network identifier 20. -/
theorem claim_C2_fallback_always_attempted_witness :
    (resolveRoute emptyRouteEnv liveConfig ChainName.base ChainName.katana
        ⟨some zeroAddress, "ETH", 18, true⟩ zeroAddress zeroAddress (10 ^ 16)).2 =
      (primaryRoute emptyRouteEnv liveConfig ChainName.base ChainName.katana
          ⟨some zeroAddress, "ETH", 18, true⟩ zeroAddress zeroAddress (10 ^ 16)).2 ++
        (fallbackRoute emptyRouteEnv liveConfig ChainName.base ChainName.katana
          ⟨some zeroAddress, "ETH", 18, true⟩ zeroAddress (10 ^ 16)).2 ∧
    Event.buildBridgeAsset none 8453 ⟨20, "0xWallet", 10 ^ 16, zeroAddress, true⟩ "0xWallet"
      ∈ (resolveRoute emptyRouteEnv liveConfig ChainName.base ChainName.katana
          ⟨some zeroAddress, "ETH", 18, true⟩ zeroAddress zeroAddress (10 ^ 16)).2 := by
  have h := (claim_C2_fallback_always_attempted emptyRouteEnv liveConfig ChainName.base
    ChainName.katana ⟨some zeroAddress, "ETH", 18, true⟩ zeroAddress zeroAddress
    (10 ^ 16)).1 "No routes available from Core API" rfl
  exact ⟨h.1, h.2.2 rfl⟩

theorem testBridgeScenario_status {env : Env} {cfg : Config} {a b : ChainName}
    {sym : TokenSym} {r : TestResult}
    (h : (testBridgeScenario env cfg a b sym).1 = Except.ok r) :
    r.status = "SUCCESS" ∨ r.status = "SUCCESS (DRY RUN)" ∨ r.status = "FAILED" := by
  unfold testBridgeScenario at h
  rcases M.tryCatch_ok_inv h with hok | ⟨e, herr, hh⟩
  · obtain ⟨tx, method, r0, hex, hrst⟩ := scenarioBody_ok_inv hok
    subst hrst
    rcases hm : r0.mock with _ | _
    · left
      simp [successResult, hm]
    · right
      left
      simp [successResult, hm]
  · have hr' : r = failedResult a b sym e := by simpa [M.pure] using hh.symm
    subst hr'
    right
    right
    rfl

theorem runScenarios_status (env : Env) (cfg : Config) :
    ∀ (l : List Scenario) (rs : List TestResult),
      (runScenarios env cfg l).1 = Except.ok rs →
      ∀ r ∈ rs, r.status = "SUCCESS" ∨ r.status = "SUCCESS (DRY RUN)" ∨
        r.status = "FAILED" ∨ r.status = "SKIPPED" := by
  intro l
  induction l with
  | nil =>
      intro rs h r hr
      have hrs : rs = [] := by simpa [runScenarios, M.pure] using h.symm
      subst hrs
      cases hr
  | cons s rest ih =>
      intro rs h r hr
      unfold runScenarios at h
      split at h
      · obtain ⟨rs', hres, hp⟩ := M.bind_ok_inv h
        have hrs : rs = skippedResult s :: rs' := by simpa [M.pure] using hp.symm
        subst hrs
        rcases List.mem_cons.mp hr with heq | hm
        · subst heq
          right
          right
          right
          rfl
        · exact ih rs' hres r hm
      · obtain ⟨r0, hsc, h1⟩ := M.bind_ok_inv h
        obtain ⟨u, hu, h2⟩ := M.bind_ok_inv h1
        obtain ⟨rs', hres, hp⟩ := M.bind_ok_inv h2
        have hrs : rs = r0 :: rs' := by simpa [M.pure] using hp.symm
        subst hrs
        rcases List.mem_cons.mp hr with heq | hm
        · subst heq
          rcases testBridgeScenario_status hsc with h' | h' | h'
          · exact Or.inl h'
          · exact Or.inr (Or.inl h')
          · exact Or.inr (Or.inr (Or.inl h'))
        · exact ih rs' hres r hm

/-- C9: every record the orchestrator appends to the test-results list has
a status among the four of the source — `"SUCCESS"`, `"SUCCESS (DRY RUN)"`
(the spec's SUCCESS_DRY_RUN label), `"FAILED"`, `"SKIPPED"` — for every
environment and configuration (live success, dry-run success, failure and
skip are the only record shapes). -/
theorem claim_C9_status_closed (env : Env) (cfg : Config) (r : TestResult)
    (hr : r ∈ resultsOf env cfg) :
    r.status = "SUCCESS" ∨ r.status = "SUCCESS (DRY RUN)" ∨
    r.status = "FAILED" ∨ r.status = "SKIPPED" := by
  unfold resultsOf at hr
  rcases hrun : (runAllTests env cfg).1 with e | rs <;> rw [hrun] at hr
  · cases hr
  · exact runScenarios_status env cfg testScenarios rs hrun r hr

/-- C9 witness: the FAILED record of the WBTC katana → base scenario is
among the sample run's results and its status is in the closed set. -/
theorem claim_C9_status_closed_witness :
    (failedResult ChainName.katana ChainName.base TokenSym.WBTC
        (msgNotResolved TokenSym.WBTC ChainName.katana)).status = "SUCCESS" ∨
    (failedResult ChainName.katana ChainName.base TokenSym.WBTC
        (msgNotResolved TokenSym.WBTC ChainName.katana)).status = "SUCCESS (DRY RUN)" ∨
    (failedResult ChainName.katana ChainName.base TokenSym.WBTC
        (msgNotResolved TokenSym.WBTC ChainName.katana)).status = "FAILED" ∨
    (failedResult ChainName.katana ChainName.base TokenSym.WBTC
        (msgNotResolved TokenSym.WBTC ChainName.katana)).status = "SKIPPED" :=
  claim_C9_status_closed liveEnv liveConfig
    (failedResult ChainName.katana ChainName.base TokenSym.WBTC
      (msgNotResolved TokenSym.WBTC ChainName.katana)) (by decide)

/-- C8 counterexample: the claim's concrete instance is false — the
decimal-string nonce `"46247"` does not normalize to `"0xb497"` (since
0xb497 is 46231, not 46247). -/
theorem claim_C8_nonce_counterexample : normalizeNonce "46247" ≠ "0xb497" := by decide

/-- C8 (amended): normalization converts a plain decimal numeric-string
nonce to the hex string of the same value — `"46247"` normalizes to
`"0xb4a7"` — and passes an already-hex-prefixed nonce through
unchanged. -/
theorem claim_C8_nonce_normalization :
    normalizeNonce "46247" = "0xb4a7" ∧
    ∀ s, isHexPrefixed s = true → normalizeNonce s = s := by
  constructor
  · decide
  · intro s hs
    unfold normalizeNonce
    rw [if_pos hs]

/-- C8 witness: the hex-prefixed nonce `"0xb497"` passes through
unchanged. -/
theorem claim_C8_nonce_normalization_witness :
    isHexPrefixed "0xb497" = true ∧ normalizeNonce "0xb497" = "0xb497" :=
  ⟨by decide, claim_C8_nonce_normalization.2 "0xb497" (by decide)⟩

end AggBridge
